import Mathlib

/-!
Verification of the webpack-runtime-api repository (src/mod.ts).

The development shallowly embeds the three source components:

* a model of Node's POSIX `path` functions (`path.resolve`, `path.relative`)
  as used by `ssrLoadModule` and `addEntry`;
* the build manager created by `createManager` (entry registry, waiter list,
  running flag, watch callback) as an explicit state machine;
* the module cache and loader of `ssrLoadModule`, with the host loading
  facility (`require` / dynamic `import`) passed in as a function and the
  performed load operations returned as an explicit event trace.
-/

set_option autoImplicit false

namespace WebpackRuntimeAPI

/-! ## Node path model (POSIX)

Paths are strings over components separated by the slash character.
`path.resolve` and `path.relative` first resolve their arguments against
the current working directory, normalising away empty, `.` and `..`
components; `path.relative` then strips the common prefix and ascends with
`..` components. -/

/-- Split a character list at every slash character (model of
`String.splitOn "/"`, written with structural recursion so the kernel can
evaluate it). -/
def splitSlashAux : List Char → List Char → List String
  | [], acc => [String.mk acc.reverse]
  | c :: cs, acc =>
    if c = '/' then String.mk acc.reverse :: splitSlashAux cs []
    else splitSlashAux cs (c :: acc)

/-- Split a string at every slash. -/
def splitSlash (s : String) : List String :=
  splitSlashAux s.data []

/-- Join components with slashes. -/
def joinSlash : List String → String
  | [] => ""
  | [x] => x
  | x :: xs => x ++ "/" ++ joinSlash xs

/-- Model of `String.startsWith` by list-of-characters comparison. -/
def startsWithLit (s pre : String) : Bool :=
  pre.data.isPrefixOf s.data

/-- A parsed path: absoluteness flag and raw components. -/
structure JPath where
  absolute : Bool
  comps : List String
deriving DecidableEq

/-- Parse a path string. -/
def parsePath (s : String) : JPath :=
  ⟨startsWithLit s "/", splitSlash s⟩

/-- One step of path normalisation for an absolute path: empty and `.`
components are dropped, `..` removes the previous component (a no-op at the
root), anything else is kept. -/
def normStep (acc : List String) (c : String) : List String :=
  if c = "" ∨ c = "." then acc
  else if c = ".." then acc.dropLast
  else acc ++ [c]

/-- Normalise the components of an absolute path. -/
def normAbs (l : List String) : List String :=
  l.foldl normStep []

/-- Components of `path.resolve(p)` evaluated with working directory `cwd`. -/
def nodeResolveComps (cwd p : String) : List String :=
  if (parsePath p).absolute then normAbs (parsePath p).comps
  else normAbs ((parsePath cwd).comps ++ (parsePath p).comps)

/-- Render normalised absolute components as a path string. -/
def absString (l : List String) : String :=
  "/" ++ joinSlash l

/-- Model of Node's one-argument `path.resolve(p)`. -/
def nodeResolve (cwd p : String) : String :=
  absString (nodeResolveComps cwd p)

/-- Model of Node's two-argument `path.resolve(a, b)`. -/
def nodeResolve2 (cwd a b : String) : String :=
  if (parsePath b).absolute then absString (normAbs (parsePath b).comps)
  else if (parsePath a).absolute then
    absString (normAbs ((parsePath a).comps ++ (parsePath b).comps))
  else
    absString (normAbs ((parsePath cwd).comps ++ (parsePath a).comps ++ (parsePath b).comps))

/-- Length of the common leading run of two component lists. -/
def commonLen : List String → List String → Nat
  | a :: as, b :: bs => if a = b then commonLen as bs + 1 else 0
  | _, _ => 0

/-- Relative components from `f` to `t`: ascend out of the uncommon part of
`f`, then descend into the uncommon part of `t`. -/
def relComps (f t : List String) : List String :=
  List.replicate (f.length - commonLen f t) ".." ++ t.drop (commonLen f t)

/-- Model of Node's `path.relative(fr, tgt)`. -/
def nodeRelative (cwd fr tgt : String) : String :=
  joinSlash (relComps (nodeResolveComps cwd fr) (nodeResolveComps cwd tgt))

/-- Model of `.replace(/\\/g, "/")`: every backslash becomes a slash. -/
def replaceBackslash (s : String) : String :=
  String.mk (s.data.map fun c => if c = '\\' then '/' else c)

/-! ### Path lemmas -/

/-- A component produced by normalisation: not empty, not `.`, not `..`. -/
def cleanComp (c : String) : Prop :=
  c ≠ "" ∧ c ≠ "." ∧ c ≠ ".."

theorem mem_of_mem_dropLast {α : Type} {x : α} :
    ∀ {l : List α}, x ∈ l.dropLast → x ∈ l
  | [], h => by simp at h
  | [_], h => by simp at h
  | a :: b :: t, h => by
    rw [List.dropLast_cons₂] at h
    rcases List.mem_cons.mp h with h1 | h2
    · exact h1 ▸ List.mem_cons_self _ _
    · exact List.mem_cons_of_mem _ (mem_of_mem_dropLast h2)

/-- Any property that holds of the accumulator and of every non-special
input component holds of every component produced by the normalisation
fold. -/
theorem foldl_normStep_pred (P : String → Prop) :
    ∀ (l acc : List String), (∀ x ∈ acc, P x) →
      (∀ x ∈ l, x ≠ "" → x ≠ "." → x ≠ ".." → P x) →
      ∀ x ∈ List.foldl normStep acc l, P x
  | [], acc, hacc, _, x, hx => hacc x hx
  | c :: cs, acc, hacc, hl, x, hx => by
    refine foldl_normStep_pred P cs (normStep acc c) ?_
      (fun y hy => hl y (List.mem_cons_of_mem _ hy)) x hx
    intro y hy
    unfold normStep at hy
    split at hy
    · exact hacc y hy
    · split at hy
      · exact hacc y (mem_of_mem_dropLast hy)
      · rcases List.mem_append.mp hy with h1 | h2
        · exact hacc y h1
        · rcases List.mem_singleton.mp h2 with rfl
          next hns hdd =>
            push_neg at hns
            exact hl y (List.mem_cons_self _ _) hns.1 hns.2 hdd

/-- Every component of a normalised absolute path is clean. -/
theorem normAbs_clean (l : List String) : ∀ x ∈ normAbs l, cleanComp x :=
  foldl_normStep_pred cleanComp l [] (by simp)
    (fun _ _ h1 h2 h3 => ⟨h1, h2, h3⟩)

/-- Folding the normalisation step over a list of clean components just
appends it to the accumulator. -/
theorem foldl_normStep_clean :
    ∀ (l acc : List String), (∀ x ∈ l, cleanComp x) →
      List.foldl normStep acc l = acc ++ l
  | [], acc, _ => by simp
  | c :: cs, acc, h => by
    have hc := h c (List.mem_cons_self _ _)
    have hstep : normStep acc c = acc ++ [c] := by
      unfold normStep
      rw [if_neg, if_neg]
      · exact hc.2.2
      · rintro (h1 | h2)
        · exact hc.1 h1
        · exact hc.2.1 h2
    rw [List.foldl_cons, hstep,
      foldl_normStep_clean cs (acc ++ [c]) (fun x hx => h x (List.mem_cons_of_mem _ hx))]
    simp

/-- Normalisation is the identity on clean component lists. -/
theorem normAbs_of_clean (l : List String) (h : ∀ x ∈ l, cleanComp x) :
    normAbs l = l := by
  unfold normAbs
  rw [foldl_normStep_clean l [] h]
  simp

/-- Normalisation is idempotent. -/
theorem normAbs_idem (l : List String) : normAbs (normAbs l) = normAbs l :=
  normAbs_of_clean _ (normAbs_clean l)

/-- A leading empty component is dropped by normalisation. -/
theorem normAbs_nil_cons (l : List String) : normAbs ("" :: l) = normAbs l := by
  unfold normAbs
  rw [List.foldl_cons]
  rfl

theorem splitSlash_slash_append (t : String) :
    splitSlash ("/" ++ t) = "" :: splitSlash t := by
  show splitSlashAux ("/" ++ t).data [] = "" :: splitSlashAux t.data []
  rw [String.data_append]
  show splitSlashAux ('/' :: t.data) [] = "" :: splitSlashAux t.data []
  simp only [splitSlashAux]
  simp

theorem startsWithLit_slash_append (t : String) :
    startsWithLit ("/" ++ t) "/" = true := by
  unfold startsWithLit
  rw [String.data_append]
  simp [List.isPrefixOf]

/-- Splitting a slash-free character run yields one component. -/
theorem splitSlashAux_no_slash :
    ∀ (cs acc : List Char), (∀ c ∈ cs, c ≠ '/') →
      splitSlashAux cs acc = [String.mk (acc.reverse ++ cs)]
  | [], acc, _ => by simp [splitSlashAux]
  | c :: cs, acc, h => by
    unfold splitSlashAux
    rw [if_neg (h c (List.mem_cons_self _ _))]
    rw [splitSlashAux_no_slash cs (c :: acc) (fun y hy => h y (List.mem_cons_of_mem _ hy))]
    simp

/-- Splitting a slash-free run followed by a slash peels off one
component. -/
theorem splitSlashAux_append_slash :
    ∀ (xs : List Char) (acc ys : List Char), (∀ c ∈ xs, c ≠ '/') →
      splitSlashAux (xs ++ '/' :: ys) acc
        = String.mk (acc.reverse ++ xs) :: splitSlashAux ys []
  | [], acc, ys, _ => by
    rw [List.nil_append]
    simp only [splitSlashAux]
    simp
  | x :: xs, acc, ys, h => by
    rw [List.cons_append]
    simp only [splitSlashAux]
    rw [if_neg (h x (List.mem_cons_self _ _))]
    rw [splitSlashAux_append_slash xs (x :: acc) ys
      (fun y hy => h y (List.mem_cons_of_mem _ hy))]
    simp

/-- No slash occurs in a component string. -/
def noSlash (s : String) : Prop :=
  ∀ c ∈ s.data, c ≠ '/'

/-- Components produced by splitting contain no slash. -/
theorem splitSlashAux_noSlash :
    ∀ (cs acc : List Char), (∀ c ∈ acc, c ≠ '/') →
      ∀ s ∈ splitSlashAux cs acc, noSlash s
  | [], acc, hacc, s, hs => by
    simp only [splitSlashAux, List.mem_singleton] at hs
    subst hs
    intro c hc
    exact hacc c (List.mem_reverse.mp hc)
  | c :: cs, acc, hacc, s, hs => by
    unfold splitSlashAux at hs
    split at hs
    · rcases List.mem_cons.mp hs with h1 | h2
      · subst h1
        intro d hd
        exact hacc d (List.mem_reverse.mp hd)
      · exact splitSlashAux_noSlash cs [] (by simp) s h2
    · next hne =>
      exact splitSlashAux_noSlash cs (c :: acc)
        (by
          intro d hd
          rcases List.mem_cons.mp hd with h1 | h2
          · exact h1 ▸ hne
          · exact hacc d h2) s hs

theorem splitSlash_noSlash (s : String) : ∀ x ∈ splitSlash s, noSlash x :=
  splitSlashAux_noSlash s.data [] (by simp)

/-- Splitting inverts joining for nonempty lists of slash-free
components. -/
theorem splitSlash_joinSlash :
    ∀ (l : List String), l ≠ [] → (∀ s ∈ l, noSlash s) →
      splitSlash (joinSlash l) = l
  | [], h, _ => absurd rfl h
  | [x], _, hs => by
    unfold joinSlash splitSlash
    rw [splitSlashAux_no_slash x.data [] (hs x (List.mem_singleton.mpr rfl))]
    simp
  | x :: y :: ys, _, hs => by
    show splitSlash (x ++ "/" ++ joinSlash (y :: ys)) = x :: y :: ys
    unfold splitSlash
    rw [String.data_append, String.data_append]
    have : (String.mk ['/']).data = ['/'] := rfl
    rw [show ("/" : String).data = ['/'] from rfl, List.append_assoc, List.singleton_append]
    rw [splitSlashAux_append_slash x.data [] (joinSlash (y :: ys)).data
      (hs x (List.mem_cons_self _ _))]
    rw [show splitSlashAux (joinSlash (y :: ys)).data [] = splitSlash (joinSlash (y :: ys)) from rfl]
    rw [splitSlash_joinSlash (y :: ys) (by simp)
      (fun s h => hs s (List.mem_cons_of_mem _ h))]
    simp

/-- Every component of a resolved path is slash-free. -/
theorem nodeResolveComps_noSlash (cwd p : String) :
    ∀ x ∈ nodeResolveComps cwd p, noSlash x := by
  unfold nodeResolveComps
  split
  · exact foldl_normStep_pred noSlash _ [] (by simp)
      (fun x hx _ _ _ => splitSlash_noSlash p x hx)
  · refine foldl_normStep_pred noSlash _ [] (by simp) ?_
    intro x hx _ _ _
    rcases List.mem_append.mp hx with h1 | h2
    · exact splitSlash_noSlash cwd x h1
    · exact splitSlash_noSlash p x h2

/-- Every component of a resolved path is clean. -/
theorem nodeResolveComps_clean (cwd p : String) :
    ∀ x ∈ nodeResolveComps cwd p, cleanComp x := by
  unfold nodeResolveComps
  split
  · exact normAbs_clean _
  · exact normAbs_clean _

/-- Resolving an already-resolved path changes nothing: the key lemma
behind the agreement of the entry-registration key and the artifact-lookup
key. -/
theorem nodeResolveComps_nodeResolve (cwd p : String) :
    nodeResolveComps cwd (nodeResolve cwd p) = nodeResolveComps cwd p := by
  set m := nodeResolveComps cwd p with hm
  have habs : (parsePath (nodeResolve cwd p)).absolute = true := by
    unfold parsePath nodeResolve absString
    exact startsWithLit_slash_append _
  have hcomps : (parsePath (nodeResolve cwd p)).comps = "" :: splitSlash (joinSlash m) := by
    unfold parsePath nodeResolve absString
    exact splitSlash_slash_append _
  unfold nodeResolveComps
  rw [habs]
  simp only [if_true, hcomps]
  rw [normAbs_nil_cons]
  rcases eq_or_ne m [] with hnil | hne
  · rw [hnil]
    show normAbs (splitSlash "") = []
    simp [splitSlash, splitSlashAux, normAbs, normStep]
  · rw [splitSlash_joinSlash m hne (fun s h => nodeResolveComps_noSlash cwd p s (hm ▸ h))]
    exact normAbs_of_clean m (fun x hx => nodeResolveComps_clean cwd p x (hm ▸ hx))

/-! ## Errors and values -/

/-- A thrown JavaScript error, identified by its message. -/
inductive Err where
  | msg (s : String)
deriving DecidableEq

/-- Loaded module namespace objects are modelled as opaque reference
tokens, so that equality of tokens is reference identity. -/
abbrev Val := Nat

/-! ## Relative entry identifiers

Both `addEntry` (src/mod.ts lines 138-141) and `ssrLoadModule`
(lines 52-54) turn an absolute filename into a relative identifier:
`path.relative(context, filename)`, backslashes replaced by slashes, and a
leading `./` added when the result starts with neither `./` nor `../`.
The two code sites are embedded separately, one definition per site, so
that their agreement is a theorem rather than a modelling choice. -/

/-- The identifier under which `addEntry` registers a new dynamic entry
target (src/mod.ts lines 138-141). -/
def entryRelativeId (cwd context filename : String) : String :=
  if startsWithLit (replaceBackslash (nodeRelative cwd context filename)) "./"
      || startsWithLit (replaceBackslash (nodeRelative cwd context filename)) "../" then
    replaceBackslash (nodeRelative cwd context filename)
  else
    "./" ++ replaceBackslash (nodeRelative cwd context filename)

/-- The identifier `ssrLoadModule` looks up in `assetsByChunkName`
(src/mod.ts lines 52-54). -/
def loadRelativeId (cwd context filename : String) : String :=
  if startsWithLit (replaceBackslash (nodeRelative cwd context filename)) "./"
      || startsWithLit (replaceBackslash (nodeRelative cwd context filename)) "../" then
    replaceBackslash (nodeRelative cwd context filename)
  else
    "./" ++ replaceBackslash (nodeRelative cwd context filename)

/-! ## Build manager (`createManager`)

The manager's module-level mutable state — the `waiting` array of
deferreds, `lastStatus`, the `running` flag, the abort signal, the entry
set and the dynamic targets registered through `EntryPlugin` — is made an
explicit state record; `watching.invalidate()` calls are counted as an
event trace. Build results handed to waiters are opaque `Stats` reference
tokens (`Nat`). -/

deriving instance DecidableEq for Except

/-- A `Deferred<Stats>`: the promise either is still pending
(`settled = none`) or has been settled once with an outcome. Settling an
already-settled promise is a no-op (JavaScript promise semantics). -/
structure Dfd where
  ident : Nat
  settled : Option (Except Err Nat)
deriving DecidableEq

/-- Settle a deferred with an outcome; a no-op if it is already
settled. -/
def settleDfd (out : Except Err Nat) (d : Dfd) : Dfd :=
  match d.settled with
  | some _ => d
  | none => { d with settled := some out }

/-- The manager's mutable state (src/mod.ts lines 94-131). -/
structure ManagerState where
  waiting : List Dfd
  lastStatus : Option (Except Err Nat)
  running : Bool
  aborted : Bool
  entries : List String
  targets : List String
  invalidations : Nat
deriving DecidableEq

/-- State of a freshly constructed manager. -/
def initialManager : ManagerState :=
  { waiting := [], lastStatus := none, running := false, aborted := false,
    entries := [], targets := [], invalidations := 0 }

/-- The outcome recorded by the watch callback (src/mod.ts lines
102-112): a truthy `err` wins, a missing stats object becomes the
`"No stats from build"` error, otherwise the stats object is the
success. -/
def callbackOutcome (err : Option Err) (stats : Option Nat) : Except Err Nat :=
  match err with
  | some e => Except.error e
  | none =>
    match stats with
    | none => Except.error (Err.msg "No stats from build")
    | some st => Except.ok st

/-- The `compiler.watch` callback (src/mod.ts lines 101-120): record the
outcome in `lastStatus`, call resolve/reject on every deferred in
`waiting` (the array is not cleared), and clear `running` unless the
abort signal fired. -/
def watchCallback (s : ManagerState) (err : Option Err) (stats : Option Nat) :
    ManagerState :=
  { s with
    lastStatus := some (callbackOutcome err stats),
    waiting := s.waiting.map (settleDfd (callbackOutcome err stats)),
    running := if s.aborted then s.running else false }

/-- The `watchRun` hook tap (src/mod.ts lines 122-125). -/
def watchRunHook (s : ManagerState) : ManagerState :=
  { s with running := true }

/-- The `invalid` hook tap (src/mod.ts line 126). -/
def invalidHook (s : ManagerState) : ManagerState :=
  { s with running := true }

/-- The `done` hook tap (src/mod.ts lines 127-129). -/
def doneHook (s : ManagerState) : ManagerState :=
  { s with running := false }

/-- `Set.add` on the entry set, preserving insertion order. -/
def insertEntry (filename : String) (l : List String) : List String :=
  if l.contains filename then l else l ++ [filename]

/-- `addEntry` (src/mod.ts lines 134-146): add the filename to the entry
set; if the set grew, register one dynamic `EntryPlugin` target under the
relative identifier and invalidate the watcher. -/
def addEntry (cwd context : String) (s : ManagerState) (filename : String) :
    ManagerState :=
  if (insertEntry filename s.entries).length ≠ s.entries.length then
    { s with
      entries := insertEntry filename s.entries,
      targets := s.targets ++ [entryRelativeId cwd context filename],
      invalidations := s.invalidations + 1 }
  else
    { s with entries := insertEntry filename s.entries }

/-- Result of one `waitForDone()` call: either an immediate return or
rejection, or the registration of a fresh pending waiter. -/
inductive WaitCall where
  | immediate (r : Except Err Nat)
  | registered (i : Nat)
deriving DecidableEq

/-- `waitForDone` (src/mod.ts lines 155-164): when not running, fail with
`"No build status available"` if no build ever completed, rethrow a
recorded failure, or return the recorded stats; when running, push a fresh
deferred onto `waiting`. -/
def waitForDone (s : ManagerState) (freshId : Nat) : WaitCall × ManagerState :=
  if s.running then
    (WaitCall.registered freshId, { s with waiting := s.waiting ++ [⟨freshId, none⟩] })
  else
    match s.lastStatus with
    | none => (WaitCall.immediate (Except.error (Err.msg "No build status available")), s)
    | some (Except.error e) => (WaitCall.immediate (Except.error e), s)
    | some (Except.ok st) => (WaitCall.immediate (Except.ok st), s)

/-- The entry registration performed by `ssrLoadModule` before waiting
(src/mod.ts line 46): `manager.addEntry(path.resolve(filename))`. -/
def ssrEnsureEntry (cwd context : String) (s : ManagerState) (filename : String) :
    ManagerState :=
  addEntry cwd context s (nodeResolve cwd filename)

/-! ## Configuration validation (`createWebpackAPI`, src/mod.ts lines 7-29) -/

/-- A JavaScript value in an output-template position: a string, or
anything else (function, undefined, ...). -/
inductive JSVal where
  | str (s : String)
  | other
deriving DecidableEq

/-- The pieces of `compiler.options` read during construction. -/
structure Config where
  context : Option String
  libraryType : Option String
  filename : JSVal
  chunkFilename : JSVal
deriving DecidableEq

/-- JavaScript truthiness test for an optional string: `undefined` and the
empty string are falsy. -/
def falsyStr : Option String → Bool
  | none => true
  | some s => s = ""

/-- Contiguous-sublist test on character lists. -/
def hasSubList (sub : List Char) : List Char → Bool
  | [] => sub.isEmpty
  | c :: cs => sub.isPrefixOf (c :: cs) || hasSubList sub cs

/-- Substring test modelling `String.prototype.includes`. -/
def strIncludes (s sub : String) : Bool :=
  hasSubList sub.data s.data

/-- The template check of src/mod.ts lines 20-25 for one template:
`typeof v === "string" && v.includes("[contenthash]")`. -/
def validFilenameTemplate : JSVal → Bool
  | JSVal.str s => strIncludes s "[contenthash]"
  | JSVal.other => false

/-- The state held by a constructed API object. -/
structure APIState where
  libraryType : String
  manager : ManagerState
  modCacheKeys : List String
deriving DecidableEq

/-- `createWebpackAPI` construction (src/mod.ts lines 7-39): validate the
configuration synchronously, throwing on a falsy context, a falsy library
type, or an output template that is not a string containing
`[contenthash]`; otherwise return the API with a fresh manager and an
empty module cache. -/
def createWebpackAPI (c : Config) : Except Err APIState :=
  if falsyStr c.context then
    Except.error (Err.msg "context must be set in webpack config")
  else if falsyStr c.libraryType then
    Except.error
      (Err.msg "output.library.type (or output.libraryTarget) must be set in webpack config")
  else if ¬ (validFilenameTemplate c.filename && validFilenameTemplate c.chunkFilename) then
    Except.error
      (Err.msg "output.filename and output.chunkFilename must contain [contenthash] in webpack config")
  else
    Except.ok
      { libraryType := c.libraryType.getD "", manager := initialManager, modCacheKeys := [] }

/-! ## Stats metadata and artifact resolution (src/mod.ts lines 47-58) -/

/-- The fields of `stats.toJson()` that `ssrLoadModule` reads. -/
structure StatsJson where
  hash : Option String
  assetsByChunkName : Option (List (String × List String))
  outputPath : String
deriving DecidableEq

/-- A webpack `Stats` object as observed by `ssrLoadModule`. -/
structure WStats where
  hasErrors : Bool
  text : String
  json : StatsJson
deriving DecidableEq

/-- Property lookup in the `assetsByChunkName` record. -/
def lookupAssets (k : String) : List (String × List String) → Option (List String)
  | [] => none
  | (k2, v) :: rest => if k2 = k then some v else lookupAssets k rest

/-- The raw asset name `statsJson.assetsByChunkName?.[relative]?.slice(-1)[0]`
(src/mod.ts line 55). -/
def rawAsset (cwd context : String) (json : StatsJson) (filename : String) :
    Option String :=
  (json.assetsByChunkName.bind (lookupAssets (loadRelativeId cwd context filename))).bind
    List.getLast?

/-- The resolved artifact path of src/mod.ts lines 55-58: `undefined` when
the raw asset is missing or falsy, otherwise
`path.resolve(statsJson.outputPath, asset)`. -/
def artifactPath (cwd context : String) (json : StatsJson) (filename : String) :
    Option String :=
  match rawAsset cwd context json filename with
  | none => none
  | some a => if a = "" then none else some (nodeResolve2 cwd json.outputPath a)

/-! ## Module cache and loader (src/mod.ts lines 39, 60-77)

The `modCache` record is an association list from resolved artifact path
to `{hash, mod}`; the host loading facilities (`require` and dynamic
`import`) are passed in as functions; the artifact paths actually handed
to the host loader are returned as an event trace, so "no re-load side
effects" is the trace being empty. -/

/-- The module cache: artifact path to stored hash and value. -/
abbrev ModCache := List (String × String × Val)

/-- Record property lookup on `modCache`. -/
def cacheFind (k : String) : ModCache → Option (String × Val)
  | [] => none
  | (k2, h, v) :: rest => if k2 = k then some (h, v) else cacheFind k rest

/-- Record property assignment `modCache[toLoad] = {hash, mod}`. -/
def cacheSet (k : String) (h : String) (v : Val) : ModCache → ModCache
  | [] => [(k, h, v)]
  | (k2, h2, v2) :: rest =>
    if k2 = k then (k, h, v) :: rest else (k2, h2, v2) :: cacheSet k h v rest

/-- The `switch (libraryType)` block of src/mod.ts lines 63-77: load the
artifact with `require` or `import` according to the library type, store
`{hash, mod}` in the cache on success, and throw
`"Unsupported library type"` on any other type. The third component lists
the artifact paths handed to the host loader. -/
def loadModule (libraryType : String) (requireFn importFn : String → Except Err Val)
    (modCache : ModCache) (hash toLoad : String) :
    Except Err Val × ModCache × List String :=
  if libraryType = "commonjs" then
    match requireFn toLoad with
    | Except.ok m => (Except.ok m, cacheSet toLoad hash m modCache, [toLoad])
    | Except.error e => (Except.error e, modCache, [toLoad])
  else if libraryType = "module" then
    match importFn toLoad with
    | Except.ok m => (Except.ok m, cacheSet toLoad hash m modCache, [toLoad])
    | Except.error e => (Except.error e, modCache, [toLoad])
  else
    (Except.error (Err.msg ("Unsupported library type: " ++ libraryType)), modCache, [])

/-- Lines 52-77 of src/mod.ts, after the hash is known: resolve the
artifact, throw `"No assets found"` when resolution fails, serve the
cached value when the stored hash matches, and otherwise load and cache
the artifact. -/
def resolveAndLoad (cwd context libraryType : String)
    (requireFn importFn : String → Except Err Val) (modCache : ModCache)
    (json : StatsJson) (filename hash : String) :
    Except Err Val × ModCache × List String :=
  match artifactPath cwd context json filename with
  | none =>
    (Except.error (Err.msg ("No assets found for " ++ loadRelativeId cwd context filename)),
     modCache, [])
  | some toLoad =>
    match cacheFind toLoad modCache with
    | some (h, m) =>
      if h = hash then (Except.ok m, modCache, [])
      else loadModule libraryType requireFn importFn modCache hash toLoad
    | none => loadModule libraryType requireFn importFn modCache hash toLoad

/-- `ssrLoadModule` from the point where the awaited build outcome is
available (src/mod.ts lines 48-77): reject on a build with errors with the
stats' textual rendering, reject when the stats carry no hash, and
otherwise resolve and load. -/
def ssrLoadAfterWait (cwd context libraryType : String)
    (requireFn importFn : String → Except Err Val) (modCache : ModCache)
    (stats : WStats) (filename : String) :
    Except Err Val × ModCache × List String :=
  if stats.hasErrors then
    (Except.error (Err.msg stats.text), modCache, [])
  else
    match stats.json.hash with
    | none => (Except.error (Err.msg "No hash found in stats"), modCache, [])
    | some hash =>
      resolveAndLoad cwd context libraryType requireFn importFn modCache
        stats.json filename hash

/-! ## Helper lemmas -/

theorem insertEntry_of_contains {filename : String} {l : List String}
    (h : l.contains filename = true) : insertEntry filename l = l := by
  unfold insertEntry
  rw [if_pos h]

theorem insertEntry_of_not_contains {filename : String} {l : List String}
    (h : l.contains filename = false) : insertEntry filename l = l ++ [filename] := by
  unfold insertEntry
  rw [if_neg (by rw [h]; exact Bool.false_ne_true)]

theorem addEntry_of_contains (cwd context : String) (s : ManagerState)
    {filename : String} (h : s.entries.contains filename = true) :
    addEntry cwd context s filename = s := by
  unfold addEntry
  rw [insertEntry_of_contains h]
  simp

theorem addEntry_of_not_contains (cwd context : String) (s : ManagerState)
    {filename : String} (h : s.entries.contains filename = false) :
    addEntry cwd context s filename
      = { s with
          entries := s.entries ++ [filename],
          targets := s.targets ++ [entryRelativeId cwd context filename],
          invalidations := s.invalidations + 1 } := by
  unfold addEntry
  rw [insertEntry_of_not_contains h]
  simp

theorem cacheFind_cacheSet (k h2 : String) (v : Val) :
    ∀ c : ModCache, cacheFind k (cacheSet k h2 v c) = some (h2, v)
  | [] => by simp [cacheSet, cacheFind]
  | (k2, h3, v3) :: rest => by
    by_cases hk : k2 = k
    · simp [cacheSet, hk, cacheFind]
    · simp only [cacheSet, if_neg hk, cacheFind]
      exact cacheFind_cacheSet k h2 v rest

theorem nodeRelative_nodeResolve (cwd fr p : String) :
    nodeRelative cwd fr (nodeResolve cwd p) = nodeRelative cwd fr p := by
  unfold nodeRelative
  rw [nodeResolveComps_nodeResolve]

/-! ## Claims -/

/-- C10: the relative-identifier normalization used when registering an
entry (src/mod.ts lines 138-141, applied by `ssrLoadModule` to
`path.resolve(filename)`) computes the same key as the normalization used
when resolving an artifact (lines 52-54, applied to the raw `filename`),
because `path.relative` resolves its second argument and `path.resolve`
is idempotent. -/
theorem claim_C10_entry_key_eq_lookup_key (cwd context filename : String) :
    entryRelativeId cwd context (nodeResolve cwd filename)
      = loadRelativeId cwd context filename := by
  unfold entryRelativeId loadRelativeId
  rw [nodeRelative_nodeResolve]

/-- C3: `addEntry` is idempotent. Adding a path already in the entry set
leaves the whole manager state unchanged (no invalidate, no target
registration); adding a new path appends exactly one dynamic target and
increments the invalidate count exactly once; adding the same path twice
equals adding it once. -/
theorem claim_C3_addEntry_idempotent (cwd context : String) (s : ManagerState)
    (filename : String) :
    (s.entries.contains filename = true → addEntry cwd context s filename = s) ∧
    (s.entries.contains filename = false →
      (addEntry cwd context s filename).entries = s.entries ++ [filename] ∧
      (addEntry cwd context s filename).targets
        = s.targets ++ [entryRelativeId cwd context filename] ∧
      (addEntry cwd context s filename).invalidations = s.invalidations + 1 ∧
      (addEntry cwd context s filename).waiting = s.waiting ∧
      (addEntry cwd context s filename).running = s.running) ∧
    addEntry cwd context (addEntry cwd context s filename) filename
      = addEntry cwd context s filename := by
  refine ⟨fun h => addEntry_of_contains cwd context s h, fun h => ?_, ?_⟩
  · rw [addEntry_of_not_contains cwd context s h]
    exact ⟨rfl, rfl, rfl, rfl, rfl⟩
  · by_cases h : s.entries.contains filename = true
    · rw [addEntry_of_contains cwd context s h, addEntry_of_contains cwd context s h]
    · have h0 : s.entries.contains filename = false := by
        cases hb : s.entries.contains filename
        · rfl
        · exact absurd hb h
      rw [addEntry_of_not_contains cwd context s h0]
      apply addEntry_of_contains
      simp

/-- C3 witness: on concrete states, re-adding a present path is a no-op
and adding a new path performs exactly one invalidate. -/
theorem claim_C3_addEntry_idempotent_witness :
    addEntry "/w" "/w" { initialManager with entries := ["/w/a.ts"] } "/w/a.ts"
      = { initialManager with entries := ["/w/a.ts"] } ∧
    (addEntry "/w" "/w" initialManager "/w/a.ts").invalidations = 1 :=
  ⟨(claim_C3_addEntry_idempotent "/w" "/w"
      { initialManager with entries := ["/w/a.ts"] } "/w/a.ts").1 (by decide),
   (((claim_C3_addEntry_idempotent "/w" "/w" initialManager "/w/a.ts").2.1
      (by decide)).2.2.1).trans rfl⟩

/-- C5: a `waitForDone` call made while `running` is false registers no
waiter and changes no state; it fails with `"No build status available"`
when no build ever completed, returns the recorded stats after a recorded
success, and rethrows the recorded error after a recorded failure. -/
theorem claim_C5_waitForDone_not_running (s : ManagerState) (freshId : Nat)
    (h : s.running = false) :
    (waitForDone s freshId).2 = s ∧
    (s.lastStatus = none →
      (waitForDone s freshId).1
        = WaitCall.immediate (Except.error (Err.msg "No build status available"))) ∧
    (∀ st, s.lastStatus = some (Except.ok st) →
      (waitForDone s freshId).1 = WaitCall.immediate (Except.ok st)) ∧
    (∀ e, s.lastStatus = some (Except.error e) →
      (waitForDone s freshId).1 = WaitCall.immediate (Except.error e)) := by
  rcases hls : s.lastStatus with _ | out
  · simp [waitForDone, h, hls]
  · rcases out with e | st
    · simp [waitForDone, h, hls]
    · simp [waitForDone, h, hls]

/-- C5 witness: the three non-running cases evaluated on concrete
states. -/
theorem claim_C5_waitForDone_not_running_witness :
    (waitForDone initialManager 0).1
      = WaitCall.immediate (Except.error (Err.msg "No build status available")) ∧
    (waitForDone { initialManager with lastStatus := some (Except.ok 3) } 0).1
      = WaitCall.immediate (Except.ok 3) ∧
    (waitForDone { initialManager with lastStatus := some (Except.error (Err.msg "boom")) } 0).1
      = WaitCall.immediate (Except.error (Err.msg "boom")) :=
  ⟨(claim_C5_waitForDone_not_running initialManager 0 rfl).2.1 rfl,
   (claim_C5_waitForDone_not_running
      { initialManager with lastStatus := some (Except.ok 3) } 0 rfl).2.2.1 3 rfl,
   (claim_C5_waitForDone_not_running
      { initialManager with lastStatus := some (Except.error (Err.msg "boom")) } 0 rfl).2.2.2
      (Err.msg "boom") rfl⟩

/-- C7: construction succeeds exactly when the configuration is valid:
truthy context, truthy output library type, and both output templates
strings containing the `[contenthash]` placeholder; any invalid
configuration makes `createWebpackAPI` throw synchronously. -/
theorem claim_C7_construction_error_iff (c : Config) :
    (createWebpackAPI c).isOk = true ↔
      (falsyStr c.context = false ∧ falsyStr c.libraryType = false ∧
       validFilenameTemplate c.filename = true ∧
       validFilenameTemplate c.chunkFilename = true) := by
  cases hc : falsyStr c.context <;> cases hl : falsyStr c.libraryType <;>
    cases hf : validFilenameTemplate c.filename <;>
    cases hch : validFilenameTemplate c.chunkFilename <;>
    simp [createWebpackAPI, hc, hl, hf, hch, Except.isOk, Except.toBool]

/-- C7 witness: a fully valid configuration constructs, an invalid one
throws. -/
theorem claim_C7_construction_error_iff_witness :
    (createWebpackAPI
      { context := some "/w", libraryType := some "commonjs",
        filename := JSVal.str "main.[contenthash].js",
        chunkFilename := JSVal.str "chunk.[contenthash].js" }).isOk = true ∧
    ¬ (createWebpackAPI
      { context := none, libraryType := some "commonjs",
        filename := JSVal.str "main.[contenthash].js",
        chunkFilename := JSVal.str "chunk.[contenthash].js" }).isOk = true :=
  ⟨(claim_C7_construction_error_iff _).mpr (by refine ⟨by decide, by decide, by decide, by decide⟩),
   fun h => by
    have h2 := (claim_C7_construction_error_iff
      { context := none, libraryType := some "commonjs",
        filename := JSVal.str "main.[contenthash].js",
        chunkFilename := JSVal.str "chunk.[contenthash].js" }).mp h
    exact absurd h2.1 (by decide)⟩

/-- C1: cache identity in `ssrLoadModule`. When the cache holds an entry
for the resolved artifact path whose stored hash equals the new build's
hash, the stored value itself is returned, the cache is untouched and no
host load happens (empty load trace); otherwise the artifact is loaded
fresh through the `switch`, which on success returns the new value and
replaces the entry for that path with the new hash/value pair. -/
theorem claim_C1_cache_identity (cwd context libraryType : String)
    (requireFn importFn : String → Except Err Val) (modCache : ModCache)
    (stats : WStats) (filename hash toLoad : String)
    (hE : stats.hasErrors = false)
    (hH : stats.json.hash = some hash)
    (hA : artifactPath cwd context stats.json filename = some toLoad) :
    (∀ v, cacheFind toLoad modCache = some (hash, v) →
      ssrLoadAfterWait cwd context libraryType requireFn importFn modCache stats filename
        = (Except.ok v, modCache, [])) ∧
    (cacheFind toLoad modCache = none →
      ssrLoadAfterWait cwd context libraryType requireFn importFn modCache stats filename
        = loadModule libraryType requireFn importFn modCache hash toLoad) ∧
    (∀ h2 v, cacheFind toLoad modCache = some (h2, v) → h2 ≠ hash →
      ssrLoadAfterWait cwd context libraryType requireFn importFn modCache stats filename
        = loadModule libraryType requireFn importFn modCache hash toLoad) ∧
    (∀ m, libraryType = "commonjs" → requireFn toLoad = Except.ok m →
      loadModule libraryType requireFn importFn modCache hash toLoad
        = (Except.ok m, cacheSet toLoad hash m modCache, [toLoad])) ∧
    (∀ m, libraryType = "module" → importFn toLoad = Except.ok m →
      loadModule libraryType requireFn importFn modCache hash toLoad
        = (Except.ok m, cacheSet toLoad hash m modCache, [toLoad])) ∧
    (∀ h2 v c2, cacheFind toLoad (cacheSet toLoad h2 v c2) = some (h2, v)) := by
  refine ⟨fun v hv => ?_, fun hnone => ?_, fun h2 v hv hne => ?_,
    fun m hlt hr => ?_, fun m hlt hr => ?_,
    fun h2 v c2 => cacheFind_cacheSet toLoad h2 v c2⟩
  · simp [ssrLoadAfterWait, hE, hH, resolveAndLoad, hA, hv]
  · simp [ssrLoadAfterWait, hE, hH, resolveAndLoad, hA, hnone]
  · simp [ssrLoadAfterWait, hE, hH, resolveAndLoad, hA, hv, hne]
  · simp [loadModule, hlt, hr]
  · have hne : libraryType ≠ "commonjs" := by rw [hlt]; decide
    simp [loadModule, hlt, hne, hr]

/-- C1 witness: a concrete cache hit returns the stored value with an
empty load trace. -/
theorem claim_C1_cache_identity_witness :
    ssrLoadAfterWait "/w" "/w" "commonjs" (fun _ => Except.ok 9) (fun _ => Except.ok 8)
      [("/out/main.js", "h1", 7)]
      { hasErrors := false, text := "",
        json := { hash := some "h1",
                  assetsByChunkName := some [("./a.ts", ["main.js"])],
                  outputPath := "/out" } } "/w/a.ts"
      = (Except.ok 7, [("/out/main.js", "h1", 7)], []) :=
  (claim_C1_cache_identity "/w" "/w" "commonjs" (fun _ => Except.ok 9)
    (fun _ => Except.ok 8) [("/out/main.js", "h1", 7)]
    { hasErrors := false, text := "",
      json := { hash := some "h1",
                assetsByChunkName := some [("./a.ts", ["main.js"])],
                outputPath := "/out" } } "/w/a.ts" "h1" "/out/main.js"
    rfl rfl (by decide)).1 7 (by decide)

/-- C4: artifact resolution normalizes the requested path to the
relative identifier, looks it up in `assetsByChunkName`, takes the last
element of the artifact list and joins it against the build's output
directory; a missing mapping, an absent identifier or an empty list make
the raw asset `undefined`, in which case `ssrLoadModule` rejects with the
`"No assets found"` error. -/
theorem claim_C4_artifact_resolution (cwd context libraryType : String)
    (requireFn importFn : String → Except Err Val) (modCache : ModCache)
    (stats : WStats) (filename hash : String)
    (hE : stats.hasErrors = false) (hH : stats.json.hash = some hash) :
    (∀ m l a, stats.json.assetsByChunkName = some m →
      lookupAssets (loadRelativeId cwd context filename) m = some l →
      l.getLast? = some a → a ≠ "" →
      artifactPath cwd context stats.json filename
        = some (nodeResolve2 cwd stats.json.outputPath a)) ∧
    (stats.json.assetsByChunkName = none →
      rawAsset cwd context stats.json filename = none) ∧
    (∀ m, stats.json.assetsByChunkName = some m →
      lookupAssets (loadRelativeId cwd context filename) m = none →
      rawAsset cwd context stats.json filename = none) ∧
    (∀ m, stats.json.assetsByChunkName = some m →
      lookupAssets (loadRelativeId cwd context filename) m = some [] →
      rawAsset cwd context stats.json filename = none) ∧
    (rawAsset cwd context stats.json filename = none →
      ssrLoadAfterWait cwd context libraryType requireFn importFn modCache stats filename
        = (Except.error (Err.msg ("No assets found for " ++ loadRelativeId cwd context filename)),
           modCache, [])) := by
  refine ⟨fun m l a hm hl ha hne => ?_, fun hm => ?_, fun m hm hl => ?_,
    fun m hm hl => ?_, fun hraw => ?_⟩
  · simp [artifactPath, rawAsset, hm, hl, ha, hne]
  · simp [rawAsset, hm]
  · simp [rawAsset, hm, hl]
  · simp [rawAsset, hm, hl]
  · have hart : artifactPath cwd context stats.json filename = none := by
      simp [artifactPath, hraw]
    simp [ssrLoadAfterWait, hE, hH, resolveAndLoad, hart]

/-- C4 witness: concrete resolution success and a concrete absent
identifier rejecting with the descriptive error. -/
theorem claim_C4_artifact_resolution_witness :
    artifactPath "/w" "/w"
      { hash := some "h1", assetsByChunkName := some [("./a.ts", ["runtime.js", "main.js"])],
        outputPath := "/out" } "/w/a.ts"
      = some (nodeResolve2 "/w" "/out" "main.js") ∧
    ssrLoadAfterWait "/w" "/w" "commonjs" (fun _ => Except.ok 1) (fun _ => Except.ok 2) []
      { hasErrors := false, text := "",
        json := { hash := some "h1", assetsByChunkName := some [], outputPath := "/out" } }
      "/w/a.ts"
      = (Except.error (Err.msg ("No assets found for " ++ loadRelativeId "/w" "/w" "/w/a.ts")),
         [], []) :=
  ⟨(claim_C4_artifact_resolution "/w" "/w" "commonjs" (fun _ => Except.ok 1)
      (fun _ => Except.ok 2) []
      { hasErrors := false, text := "",
        json := { hash := some "h1",
                  assetsByChunkName := some [("./a.ts", ["runtime.js", "main.js"])],
                  outputPath := "/out" } } "/w/a.ts" "h1" rfl rfl).1
      [("./a.ts", ["runtime.js", "main.js"])] ["runtime.js", "main.js"] "main.js"
      rfl (by decide) (by decide) (by decide),
   (claim_C4_artifact_resolution "/w" "/w" "commonjs" (fun _ => Except.ok 1)
      (fun _ => Except.ok 2) []
      { hasErrors := false, text := "",
        json := { hash := some "h1", assetsByChunkName := some [], outputPath := "/out" } }
      "/w/a.ts" "h1" rfl rfl).2.2.2.2 (by decide)⟩

/-- C8: once the awaited build outcome is available, a build with errors
makes `ssrLoadModule` reject with a single error wrapping the stats'
diagnostic text; a successful build without a hash makes it reject with
the `"No hash found in stats"` error; and only a successful build with a
hash proceeds to artifact resolution and loading. -/
theorem claim_C8_build_outcome_gate (cwd context libraryType : String)
    (requireFn importFn : String → Except Err Val) (modCache : ModCache)
    (stats : WStats) (filename : String) :
    (stats.hasErrors = true →
      ssrLoadAfterWait cwd context libraryType requireFn importFn modCache stats filename
        = (Except.error (Err.msg stats.text), modCache, [])) ∧
    (stats.hasErrors = false → stats.json.hash = none →
      ssrLoadAfterWait cwd context libraryType requireFn importFn modCache stats filename
        = (Except.error (Err.msg "No hash found in stats"), modCache, [])) ∧
    (∀ hash, stats.hasErrors = false → stats.json.hash = some hash →
      ssrLoadAfterWait cwd context libraryType requireFn importFn modCache stats filename
        = resolveAndLoad cwd context libraryType requireFn importFn modCache
            stats.json filename hash) := by
  refine ⟨fun hE => ?_, fun hE hH => ?_, fun hash hE hH => ?_⟩
  · simp [ssrLoadAfterWait, hE]
  · simp [ssrLoadAfterWait, hE, hH]
  · simp [ssrLoadAfterWait, hE, hH]

/-- C8 witness: the three gate outcomes on concrete stats. -/
theorem claim_C8_build_outcome_gate_witness :
    ssrLoadAfterWait "/w" "/w" "commonjs" (fun _ => Except.ok 1) (fun _ => Except.ok 2) []
      { hasErrors := true, text := "compile failed",
        json := { hash := none, assetsByChunkName := none, outputPath := "/out" } } "/w/a.ts"
      = (Except.error (Err.msg "compile failed"), [], []) ∧
    ssrLoadAfterWait "/w" "/w" "commonjs" (fun _ => Except.ok 1) (fun _ => Except.ok 2) []
      { hasErrors := false, text := "",
        json := { hash := none, assetsByChunkName := none, outputPath := "/out" } } "/w/a.ts"
      = (Except.error (Err.msg "No hash found in stats"), [], []) :=
  ⟨(claim_C8_build_outcome_gate "/w" "/w" "commonjs" (fun _ => Except.ok 1)
      (fun _ => Except.ok 2) []
      { hasErrors := true, text := "compile failed",
        json := { hash := none, assetsByChunkName := none, outputPath := "/out" } }
      "/w/a.ts").1 rfl,
   (claim_C8_build_outcome_gate "/w" "/w" "commonjs" (fun _ => Except.ok 1)
      (fun _ => Except.ok 2) []
      { hasErrors := false, text := "",
        json := { hash := none, assetsByChunkName := none, outputPath := "/out" } }
      "/w/a.ts").2.1 rfl rfl⟩

/-- C9: when the host loading facility throws while loading an artifact —
the cache having no entry for that path, or only a stale entry whose
stored hash differs from the new build's hash — the error propagates, the
load was attempted exactly for that artifact, and the module cache is
left entirely unchanged (no entry added, no stale entry replaced), so a
subsequent call for the same path and hash re-attempts the load (and
succeeds against the unchanged cache once the loader works) instead of
serving a poisoned entry. -/
theorem claim_C9_load_error_no_cache_poison (cwd context libraryType : String)
    (requireFn requireFn2 importFn : String → Except Err Val) (modCache : ModCache)
    (stats : WStats) (filename hash toLoad : String) (e : Err) (m : Val)
    (hE : stats.hasErrors = false) (hH : stats.json.hash = some hash)
    (hA : artifactPath cwd context stats.json filename = some toLoad)
    (hNotServed : ∀ v, cacheFind toLoad modCache ≠ some (hash, v)) :
    (libraryType = "commonjs" → requireFn toLoad = Except.error e →
      ssrLoadAfterWait cwd context libraryType requireFn importFn modCache stats filename
        = (Except.error e, modCache, [toLoad])) ∧
    (libraryType = "module" → importFn toLoad = Except.error e →
      ssrLoadAfterWait cwd context libraryType requireFn importFn modCache stats filename
        = (Except.error e, modCache, [toLoad])) ∧
    (libraryType = "commonjs" → requireFn2 toLoad = Except.ok m →
      ssrLoadAfterWait cwd context libraryType requireFn2 importFn modCache stats filename
        = (Except.ok m, cacheSet toLoad hash m modCache, [toLoad])) := by
  have key : ∀ rf imf : String → Except Err Val,
      ssrLoadAfterWait cwd context libraryType rf imf modCache stats filename
        = loadModule libraryType rf imf modCache hash toLoad := by
    intro rf imf
    rcases hc : cacheFind toLoad modCache with _ | ⟨h2, v⟩
    · simp [ssrLoadAfterWait, hE, hH, resolveAndLoad, hA, hc]
    · have hne : h2 ≠ hash := fun hh => hNotServed v (by rw [hc, hh])
      simp [ssrLoadAfterWait, hE, hH, resolveAndLoad, hA, hc, hne]
  refine ⟨fun hlt hr => ?_, fun hlt hr => ?_, fun hlt hr => ?_⟩
  · rw [key requireFn importFn]
    simp [loadModule, hlt, hr]
  · have hne : libraryType ≠ "commonjs" := by rw [hlt]; decide
    rw [key requireFn importFn]
    simp [loadModule, hlt, hne, hr]
  · rw [key requireFn2 importFn]
    simp [loadModule, hlt, hr]

/-- C9 witness: over a concrete stale cache entry (stored hash `"h0"`,
new build hash `"h1"`, same artifact path) a failing `require` propagates
the error with the stale entry kept untouched; the retry with a working
loader then replaces it; and a failing `require` over an empty cache
likewise adds no entry. -/
theorem claim_C9_load_error_no_cache_poison_witness :
    ssrLoadAfterWait "/w" "/w" "commonjs" (fun _ => Except.error (Err.msg "boom"))
      (fun _ => Except.ok 2) [("/out/main.js", "h0", 5)]
      { hasErrors := false, text := "",
        json := { hash := some "h1", assetsByChunkName := some [("./a.ts", ["main.js"])],
                  outputPath := "/out" } } "/w/a.ts"
      = (Except.error (Err.msg "boom"), [("/out/main.js", "h0", 5)], ["/out/main.js"]) ∧
    ssrLoadAfterWait "/w" "/w" "commonjs" (fun _ => Except.ok 7) (fun _ => Except.ok 2)
      [("/out/main.js", "h0", 5)]
      { hasErrors := false, text := "",
        json := { hash := some "h1", assetsByChunkName := some [("./a.ts", ["main.js"])],
                  outputPath := "/out" } } "/w/a.ts"
      = (Except.ok 7, [("/out/main.js", "h1", 7)], ["/out/main.js"]) ∧
    ssrLoadAfterWait "/w" "/w" "commonjs" (fun _ => Except.error (Err.msg "boom"))
      (fun _ => Except.ok 2) []
      { hasErrors := false, text := "",
        json := { hash := some "h1", assetsByChunkName := some [("./a.ts", ["main.js"])],
                  outputPath := "/out" } } "/w/a.ts"
      = (Except.error (Err.msg "boom"), [], ["/out/main.js"]) :=
  ⟨(claim_C9_load_error_no_cache_poison "/w" "/w" "commonjs"
      (fun _ => Except.error (Err.msg "boom")) (fun _ => Except.ok 7) (fun _ => Except.ok 2)
      [("/out/main.js", "h0", 5)]
      { hasErrors := false, text := "",
        json := { hash := some "h1", assetsByChunkName := some [("./a.ts", ["main.js"])],
                  outputPath := "/out" } } "/w/a.ts" "h1" "/out/main.js"
      (Err.msg "boom") 7 rfl rfl (by decide)
      (by intro v h; simp [cacheFind] at h)).1 rfl rfl,
   (claim_C9_load_error_no_cache_poison "/w" "/w" "commonjs"
      (fun _ => Except.error (Err.msg "boom")) (fun _ => Except.ok 7) (fun _ => Except.ok 2)
      [("/out/main.js", "h0", 5)]
      { hasErrors := false, text := "",
        json := { hash := some "h1", assetsByChunkName := some [("./a.ts", ["main.js"])],
                  outputPath := "/out" } } "/w/a.ts" "h1" "/out/main.js"
      (Err.msg "boom") 7 rfl rfl (by decide)
      (by intro v h; simp [cacheFind] at h)).2.2 rfl rfl,
   (claim_C9_load_error_no_cache_poison "/w" "/w" "commonjs"
      (fun _ => Except.error (Err.msg "boom")) (fun _ => Except.ok 7) (fun _ => Except.ok 2)
      []
      { hasErrors := false, text := "",
        json := { hash := some "h1", assetsByChunkName := some [("./a.ts", ["main.js"])],
                  outputPath := "/out" } } "/w/a.ts" "h1" "/out/main.js"
      (Err.msg "boom") 7 rfl rfl (by decide)
      (fun _ h => Option.noConfusion h)).1 rfl rfl⟩

/-- C2 counterexample: the `waiting` collection is not drained and
cleared at settlement. On a concrete state with one pending waiter the
watch callback leaves the array nonempty, and a second build generation
re-invokes resolve on the stale deferred from the first generation (a
no-op: its recorded outcome stays that of its own run). -/
theorem claim_C2_counterexample :
    (watchCallback { initialManager with running := true, waiting := [⟨0, none⟩] }
        none (some 5)).waiting ≠ [] ∧
    (watchCallback
        (watchCallback { initialManager with running := true, waiting := [⟨0, none⟩] }
          none (some 5)) none (some 6)).waiting
      = [⟨0, some (Except.ok 5)⟩] :=
  ⟨by decide, by decide⟩

/-- C2 (amended): at settlement every pending waiter in `waiting` is
settled — an unsettled deferred receives exactly this generation's
outcome, identical for all waiters of the run, while an already-settled
deferred keeps its original outcome (promise settlement is idempotent),
so no waiter is left unresolved and none observes two outcomes. The
outcome is recorded in `lastStatus` and `running` is cleared when the
abort signal has not fired; the waiter collection is mapped in place,
never cleared. -/
theorem claim_C2_waiters_settled_exactly_once (s : ManagerState)
    (err : Option Err) (stats : Option Nat) :
    (watchCallback s err stats).waiting
      = s.waiting.map (settleDfd (callbackOutcome err stats)) ∧
    (∀ d ∈ s.waiting, d.settled = none →
      settleDfd (callbackOutcome err stats) d
        = ⟨d.ident, some (callbackOutcome err stats)⟩) ∧
    (∀ d ∈ s.waiting, ∀ o, d.settled = some o →
      settleDfd (callbackOutcome err stats) d = d) ∧
    (watchCallback s err stats).lastStatus = some (callbackOutcome err stats) ∧
    (s.aborted = false → (watchCallback s err stats).running = false) := by
  refine ⟨rfl, fun d _ hd => ?_, fun d _ o hd => ?_, rfl, fun ha => ?_⟩
  · simp [settleDfd, hd]
  · simp [settleDfd, hd]
  · simp [watchCallback, ha]

/-- C2 witness: a concrete pending waiter is settled with the
generation's outcome and the running flag clears. -/
theorem claim_C2_waiters_settled_exactly_once_witness :
    settleDfd (callbackOutcome none (some 5)) ⟨0, none⟩ = ⟨0, some (Except.ok 5)⟩ ∧
    (watchCallback { initialManager with running := true, waiting := [⟨0, none⟩] }
        none (some 5)).running = false :=
  ⟨(claim_C2_waiters_settled_exactly_once
      { initialManager with running := true, waiting := [⟨0, none⟩] } none (some 5)).2.1
      ⟨0, none⟩ (by decide) rfl,
   (claim_C2_waiters_settled_exactly_once
      { initialManager with running := true, waiting := [⟨0, none⟩] } none (some 5)).2.2.2.2
      rfl⟩

/-- C6 counterexample: an unsupported library kind does not make
construction throw. With kind `"umd"` (neither `"commonjs"` nor
`"module"`) and an otherwise valid configuration, `createWebpackAPI`
succeeds; the `"Unsupported library type"` error is only produced by the
load-time `switch`. -/
theorem claim_C6_counterexample :
    (createWebpackAPI
      { context := some "/w", libraryType := some "umd",
        filename := JSVal.str "main.[contenthash].js",
        chunkFilename := JSVal.str "chunk.[contenthash].js" }).isOk = true ∧
    ("umd" : String) ≠ "commonjs" ∧ ("umd" : String) ≠ "module" ∧
    loadModule "umd" (fun _ => Except.ok 1) (fun _ => Except.ok 2) [] "h1" "/out/main.js"
      = (Except.error (Err.msg "Unsupported library type: umd"), [], []) :=
  ⟨by decide, by decide, by decide, by decide⟩

/-- C6 (amended): for a configured library kind other than `"commonjs"`
and `"module"`, construction succeeds as long as the configuration is
otherwise valid and the kind is truthy; the configuration error for the
unsupported kind is raised only at load time, when `ssrLoadModule`
reaches the module-loading `switch` with a resolved artifact that is not
served from the cache. -/
theorem claim_C6_unsupported_kind_fails_at_load (lt : String)
    (h1 : lt ≠ "commonjs") (h2 : lt ≠ "module")
    (cwd context : String) (requireFn importFn : String → Except Err Val)
    (modCache : ModCache) (stats : WStats) (filename hash toLoad : String)
    (hE : stats.hasErrors = false) (hH : stats.json.hash = some hash)
    (hA : artifactPath cwd context stats.json filename = some toLoad)
    (hMiss : cacheFind toLoad modCache = none) :
    ssrLoadAfterWait cwd context lt requireFn importFn modCache stats filename
      = (Except.error (Err.msg ("Unsupported library type: " ++ lt)), modCache, []) ∧
    ∀ c : Config, c.libraryType = some lt → lt ≠ "" →
      falsyStr c.context = false → validFilenameTemplate c.filename = true →
      validFilenameTemplate c.chunkFilename = true →
      (createWebpackAPI c).isOk = true := by
  constructor
  · simp [ssrLoadAfterWait, hE, hH, resolveAndLoad, hA, hMiss, loadModule, h1, h2]
  · intro c hc hne hctx hf hch
    have hl : falsyStr c.libraryType = false := by
      rw [hc]
      simp [falsyStr, hne]
    simp [createWebpackAPI, hctx, hl, hf, hch, Except.isOk, Except.toBool]

/-- C6 amended witness: the concrete kind `"umd"` constructs but fails a
concrete load with the descriptive error. -/
theorem claim_C6_unsupported_kind_fails_at_load_witness :
    ssrLoadAfterWait "/w" "/w" "umd" (fun _ => Except.ok 1) (fun _ => Except.ok 2) []
      { hasErrors := false, text := "",
        json := { hash := some "h1", assetsByChunkName := some [("./a.ts", ["main.js"])],
                  outputPath := "/out" } } "/w/a.ts"
      = (Except.error (Err.msg "Unsupported library type: umd"), [], []) ∧
    (createWebpackAPI
      { context := some "/w", libraryType := some "umd",
        filename := JSVal.str "main.[contenthash].js",
        chunkFilename := JSVal.str "chunk.[contenthash].js" }).isOk = true :=
  ⟨(claim_C6_unsupported_kind_fails_at_load "umd" (by decide) (by decide) "/w" "/w"
      (fun _ => Except.ok 1) (fun _ => Except.ok 2) []
      { hasErrors := false, text := "",
        json := { hash := some "h1", assetsByChunkName := some [("./a.ts", ["main.js"])],
                  outputPath := "/out" } } "/w/a.ts" "h1" "/out/main.js"
      rfl rfl (by decide) rfl).1,
   (claim_C6_unsupported_kind_fails_at_load "umd" (by decide) (by decide) "/w" "/w"
      (fun _ => Except.ok 1) (fun _ => Except.ok 2) []
      { hasErrors := false, text := "",
        json := { hash := some "h1", assetsByChunkName := some [("./a.ts", ["main.js"])],
                  outputPath := "/out" } } "/w/a.ts" "h1" "/out/main.js"
      rfl rfl (by decide) rfl).2
      { context := some "/w", libraryType := some "umd",
        filename := JSVal.str "main.[contenthash].js",
        chunkFilename := JSVal.str "chunk.[contenthash].js" }
      rfl (by decide) (by decide) (by decide) (by decide)⟩

end WebpackRuntimeAPI
